import Mathlib

/-!
Shallow embedding of the MnM two-party watch-sync protocol core:
the `SyncEvent` taxonomy and engine dispatch (`src/lib/syncEngine.ts`),
the WatchRoom reconciliation handlers (`WatchRoom` component), the
VideoPlayer echo-suppression mechanism (`VideoPlayer` component), and
the local-mode room-key derivation (`LocalFileSelector` component).
Times are rationals (seconds); timestamps are integers (ms epoch).
-/

namespace MnM

/-- Kind field `'playing' | 'paused' | 'seeked'` of a `playback_state` event. -/
inductive PlaybackKind
  | playing
  | paused
  | seeked
deriving DecidableEq

/-- Kind field `'playing' | 'paused'` of a `time_sync` event. -/
inductive SyncKind
  | playing
  | paused
deriving DecidableEq

structure PlaybackStateEvent where
  state : PlaybackKind
  time : ℚ
  sender : String
  timestamp : ℤ
deriving DecidableEq

structure BufferStateEvent where
  isBuffering : Bool
  sender : String
  timestamp : ℤ
deriving DecidableEq

structure TimeSyncEvent where
  time : ℚ
  state : SyncKind
  sender : String
  timestamp : ℤ
deriving DecidableEq

structure ChatMessageEvent where
  text : String
  sender : String
  timestamp : ℤ
deriving DecidableEq

structure ChatUiStateEvent where
  isOpen : Bool
  sender : String
deriving DecidableEq

structure RequestStateEvent where
  sender : String
deriving DecidableEq

structure FileHashEvent where
  hash : String
  fileName : String
  sender : String
deriving DecidableEq

/-- The discriminated union `SyncEvent` of `syncEngine.ts`. -/
inductive SyncEvent
  | playback_state (e : PlaybackStateEvent)
  | buffer_state (e : BufferStateEvent)
  | time_sync (e : TimeSyncEvent)
  | chat_message (e : ChatMessageEvent)
  | chat_ui_state (e : ChatUiStateEvent)
  | request_state (e : RequestStateEvent)
  | file_hash (e : FileHashEvent)
deriving DecidableEq

/-- The `sender` field every event carries. -/
def SyncEvent.sender : SyncEvent → String
  | .playback_state e => e.sender
  | .buffer_state e => e.sender
  | .time_sync e => e.sender
  | .chat_message e => e.sender
  | .chat_ui_state e => e.sender
  | .request_state e => e.sender
  | .file_hash e => e.sender

def SyncEvent.isChatMessage : SyncEvent → Bool
  | .chat_message _ => true
  | _ => false

def SyncEvent.isFileHash : SyncEvent → Bool
  | .file_hash _ => true
  | _ => false

/-- Protocol constant `DRIFT_TOLERANCE_MS` from `syncEngine.ts`. -/
def DRIFT_TOLERANCE_MS : ℚ := 500

/-- Protocol constant `TIME_SYNC_INTERVAL_MS` from `syncEngine.ts`. -/
def TIME_SYNC_INTERVAL_MS : ℚ := 3000

/-- A command that the reconciliation logic can issue to the Player
(`VideoPlayerHandle.play/pause/seekTo`). -/
inductive PlayerCmd
  | play
  | pause
  | seekTo (t : ℚ)
deriving DecidableEq

/-- The observable Player state relevant to reconciliation:
`getCurrentTime()` and `isPlaying()`. -/
structure PlayerView where
  currentTime : ℚ
  playing : Bool
deriving DecidableEq

/-- Effect of a single Player command on the observable Player state. -/
def PlayerView.applyCmd (p : PlayerView) : PlayerCmd → PlayerView
  | .play => { p with playing := true }
  | .pause => { p with playing := false }
  | .seekTo t => { p with currentTime := t }

/-- Effect of a command sequence, applied left to right. -/
def PlayerView.applyCmds (p : PlayerView) (cmds : List PlayerCmd) : PlayerView :=
  cmds.foldl PlayerView.applyCmd p

/-- One entry of the chat transcript (`ChatMessage` of `ChatPanel`). -/
structure ChatEntry where
  text : String
  sender : String
  timestamp : ℤ
deriving DecidableEq

/-- The WatchRoom component's local reconciliation state:
`playerRef` (as the observable Player view, `none` when the ref is null),
`localBufferingRef`, `peerBufferingRef`/`peerBuffering`, `bufferNotice`,
`messages`, `peerChatOpen`, `hashWarning` and `notification`. -/
structure RoomState where
  player : Option PlayerView
  localBuffering : Bool
  peerBuffering : Bool
  bufferNotice : String
  messages : List ChatEntry
  peerChatOpen : Option Bool
  hashWarning : String
  notification : String
deriving DecidableEq

/-- The `LocalFile` record of `AppProvider`. -/
structure LocalFile where
  name : String
  size : ℤ
  objectUrl : String
  hash : String
deriving DecidableEq

/-- The `PlaybackMode` union (`'cloud' | 'local'`); the nullable case is an
`Option` at the use site. -/
inductive PlaybackMode
  | cloud
  | localMode
deriving DecidableEq

/-- Ambient context a handler closes over: the local identity, the
playback mode, the selected local file, and the current clock
(`Date.now()`) used for outgoing timestamps. -/
structure RoomCtx where
  identity : String
  mode : Option PlaybackMode
  localFile : Option LocalFile
  now : ℤ
deriving DecidableEq

/-- Truthiness helper for `localFile?.hash`: the stored hash, `""` when no
file is selected. -/
def localFileHash (ctx : RoomCtx) : String :=
  (ctx.localFile.map LocalFile.hash).getD ""

/-- Helper for `localFile.name` with the same defaulting. -/
def localFileName (ctx : RoomCtx) : String :=
  (ctx.localFile.map LocalFile.name).getD ""

/-- Result of running one reconciliation handler: the updated local
state (with the issued commands already applied to the Player view),
the Player command sequence issued, in order, and the emit calls made. -/
structure HandlerOut where
  state : RoomState
  cmds : List PlayerCmd
  emits : List SyncEvent
deriving DecidableEq

/-- Call of `emitPlaybackState` of `useSyncEngine`: builds a fresh
`playback_state` event, dropped when the identity is empty. -/
def emitPlaybackStateCall (ctx : RoomCtx) (st : PlaybackKind) (time : ℚ) :
    List SyncEvent :=
  if ctx.identity = "" then []
  else [SyncEvent.playback_state ⟨st, time, ctx.identity, ctx.now⟩]

/-- Call of `emitFileHash` of `useSyncEngine`. -/
def emitFileHashCall (ctx : RoomCtx) (hash fileName : String) : List SyncEvent :=
  if ctx.identity = "" then []
  else [SyncEvent.file_hash ⟨hash, fileName, ctx.identity⟩]

/-- Handler `handlePlaybackState`: the event is authoritative; no comparison
with the local time. `playing` ⇒ seek then play; `paused` ⇒ pause then
seek; `seeked` ⇒ seek only. Null player ⇒ early return. -/
def handlePlaybackState (s : RoomState) (e : PlaybackStateEvent) : HandlerOut :=
  match s.player with
  | none => ⟨s, [], []⟩
  | some p =>
    let cmds :=
      match e.state with
      | PlaybackKind.playing => [PlayerCmd.seekTo e.time, PlayerCmd.play]
      | PlaybackKind.paused => [PlayerCmd.pause, PlayerCmd.seekTo e.time]
      | PlaybackKind.seeked => [PlayerCmd.seekTo e.time]
    ⟨{ s with player := some (p.applyCmds cmds) }, cmds, []⟩

/-- Handler `handleBufferState`: record the peer's buffering flag; peer started
buffering ⇒ set the waiting notice and pause; peer recovered ⇒ clear
the notice and play only if the local side is not buffering. The
Player calls go through `playerRef.current?.`, so a null player issues
no command while the state updates still happen. -/
def handleBufferState (s : RoomState) (e : BufferStateEvent) : HandlerOut :=
  let s1 := { s with peerBuffering := e.isBuffering }
  let s2 :=
    if e.isBuffering then
      { s1 with bufferNotice := "Waiting for " ++ e.sender ++ "…" }
    else
      { s1 with bufferNotice := "" }
  let cmds :=
    if e.isBuffering then [PlayerCmd.pause]
    else if s.localBuffering then [] else [PlayerCmd.play]
  let issued := match s.player with | none => [] | some _ => cmds
  ⟨{ s2 with player := s2.player.map (fun p => p.applyCmds issued) }, issued, []⟩

/-- Handler `handleTimeSync`: drift in ms against the heartbeat; hard-seek when
it exceeds 500; then reconcile play/pause subject to the buffering
flags. Null player ⇒ early return. -/
def handleTimeSync (s : RoomState) (e : TimeSyncEvent) : HandlerOut :=
  match s.player with
  | none => ⟨s, [], []⟩
  | some p =>
    let drift := |p.currentTime - e.time| * 1000
    let seekCmds := if 500 < drift then [PlayerCmd.seekTo e.time] else []
    let localPlaying := p.playing
    let ppCmds :=
      if e.state = SyncKind.playing ∧ localPlaying = false ∧
          s.peerBuffering = false ∧ s.localBuffering = false then
        [PlayerCmd.play]
      else if e.state = SyncKind.paused ∧ localPlaying = true then
        [PlayerCmd.pause]
      else []
    let cmds := seekCmds ++ ppCmds
    ⟨{ s with player := some (p.applyCmds cmds) }, cmds, []⟩

/-- Handler `handleChatMessage`: append to the transcript. -/
def handleChatMessage (s : RoomState) (e : ChatMessageEvent) : HandlerOut :=
  ⟨{ s with messages := s.messages ++ [⟨e.text, e.sender, e.timestamp⟩] }, [], []⟩

/-- Handler `handleChatUiState`: record the peer's chat-panel visibility. -/
def handleChatUiState (s : RoomState) (e : ChatUiStateEvent) : HandlerOut :=
  ⟨{ s with peerChatOpen := some e.isOpen }, [], []⟩

/-- Handler `handleRequestState`: re-emit the current local playback state as a
fresh `playback_state`, and in local mode with a computed hash also
re-emit the `file_hash`. Null player ⇒ early return. -/
def handleRequestState (ctx : RoomCtx) (s : RoomState) (_e : RequestStateEvent) :
    HandlerOut :=
  match s.player with
  | none => ⟨s, [], []⟩
  | some p =>
    let pb := emitPlaybackStateCall ctx
      (if p.playing then PlaybackKind.playing else PlaybackKind.paused) p.currentTime
    let fh :=
      if ctx.mode = some PlaybackMode.localMode ∧ localFileHash ctx ≠ "" then
        emitFileHashCall ctx (localFileHash ctx) (localFileName ctx)
      else []
    ⟨s, [], pb ++ fh⟩

/-- The persistent mismatch warning text set by `handleFileHash`. -/
def mismatchWarning (e : FileHashEvent) : String :=
  "⚠️ File mismatch! " ++ e.sender ++ " has \"" ++ e.fileName ++
    "\" but your file hash differs. You may be watching different versions."

/-- The one-time success notice text shown by `handleFileHash`. -/
def verifiedNotice (e : FileHashEvent) : String :=
  "✅ File verified — same file as " ++ e.sender

/-- Handler `handleFileHash`: in local mode with a computed hash, compare the
peer's hash; mismatch ⇒ set the persistent warning; match ⇒ clear the
warning and surface the success notice. No Player command either way. -/
def handleFileHash (ctx : RoomCtx) (s : RoomState) (e : FileHashEvent) : HandlerOut :=
  if ctx.mode = some PlaybackMode.localMode ∧ localFileHash ctx ≠ "" then
    if e.hash ≠ localFileHash ctx then
      ⟨{ s with hashWarning := mismatchWarning e }, [], []⟩
    else
      ⟨{ s with hashWarning := "", notification := verifiedNotice e }, [], []⟩
  else ⟨s, [], []⟩

/-- The Dismiss button next to the warning: `setHashWarning('')`. -/
def dismissHashWarning (s : RoomState) : RoomState :=
  { s with hashWarning := "" }

/-- Dispatch one event to its handler, per the `switch` on `data.type`
in `useSyncEngine`. -/
def stepEvent (ctx : RoomCtx) (s : RoomState) : SyncEvent → HandlerOut
  | .playback_state e => handlePlaybackState s e
  | .buffer_state e => handleBufferState s e
  | .time_sync e => handleTimeSync s e
  | .chat_message e => handleChatMessage s e
  | .chat_ui_state e => handleChatUiState s e
  | .request_state e => handleRequestState ctx s e
  | .file_hash e => handleFileHash ctx s e

/-- The broadcast receive path of `useSyncEngine`: a missing payload or
one whose `sender` equals the local identity is dropped before any
handler runs (`none`); otherwise the handler for its kind runs. -/
def receive (ctx : RoomCtx) (s : RoomState) (data : Option SyncEvent) :
    Option HandlerOut :=
  match data with
  | none => none
  | some ev => if ev.sender = ctx.identity then none else some (stepEvent ctx s ev)

/-- State after delivering one event (commands already applied). -/
def applyEvent (ctx : RoomCtx) (s : RoomState) (ev : SyncEvent) : RoomState :=
  (stepEvent ctx s ev).state

/-! ### Engine subscription lifecycle and emit path (`syncEngine.ts`) -/

/-- The engine-owned mutable pieces: `channelRef.current` (the open
subscription, by channel name) and the `connected` flag. -/
structure EngineState where
  channel : Option String
  connected : Bool
deriving DecidableEq

/-- State at hook mount: no channel, not connected. -/
def initEngine : EngineState := ⟨none, false⟩

/-- Channel name for a room: the string `watchroom-` followed by the video id. -/
def channelName (videoId : String) : String := "watchroom-" ++ videoId

/-- The subscription effect's guard: `if (!videoId || !identity) return;`.
When either is empty the effect body never runs and the engine state is
untouched; otherwise a channel for the room is opened. (`connected`
only turns true later, on the asynchronous `SUBSCRIBED` callback.) -/
def subscribeEffect (videoId identity : String) (es : EngineState) : EngineState :=
  if videoId = "" ∨ identity = "" then es
  else { es with channel := some (channelName videoId) }

/-- One call of some convenience-emit function, with its arguments. -/
inductive EmitCall
  | playbackState (st : PlaybackKind) (time : ℚ)
  | bufferState (isBuffering : Bool)
  | timeSync (time : ℚ) (st : SyncKind)
  | chatMessage (text : String)
  | chatUiState (isOpen : Bool)
  | requestState
  | fileHash (hash fileName : String)
deriving DecidableEq

/-- The event each emit wrapper builds (sender = local identity,
timestamp = `Date.now()` where present). -/
def mkEmitEvent (identity : String) (now : ℤ) : EmitCall → SyncEvent
  | .playbackState st time => .playback_state ⟨st, time, identity, now⟩
  | .bufferState b => .buffer_state ⟨b, identity, now⟩
  | .timeSync time st => .time_sync ⟨time, st, identity, now⟩
  | .chatMessage text => .chat_message ⟨text, identity, now⟩
  | .chatUiState b => .chat_ui_state ⟨b, identity⟩
  | .requestState => .request_state ⟨identity⟩
  | .fileHash hash fileName => .file_hash ⟨hash, fileName, identity⟩

/-- Function `broadcast`: `if (!channelRef.current) return;` — with no open
channel the event is dropped; otherwise it is sent. Nothing is queued
either way. -/
def broadcast (es : EngineState) (e : SyncEvent) : List SyncEvent :=
  match es.channel with
  | none => []
  | some _ => [e]

/-- Run one emit wrapper: each checks `if (!identity) return;` and then
calls `broadcast`. The result is the list of messages actually sent. -/
def runEmit (es : EngineState) (identity : String) (now : ℤ) (c : EmitCall) :
    List SyncEvent :=
  if identity = "" then [] else broadcast es (mkEmitEvent identity now c)

/-! ### VideoPlayer echo suppression (`suppressEventsRef` + `setTimeout`) -/

/-- Length of the suppression window each programmatic command arms:
200 ms for `play`/`pause`, 300 ms for `seekTo`. -/
def suppressDuration : PlayerCmd → ℚ
  | .play => 200
  | .pause => 200
  | .seekTo _ => 300

/-- The suppression flag plus the absolute firing times of the pending
`setTimeout` callbacks (each sets the flag back to `false`). -/
structure SuppressState where
  flag : Bool
  pending : List ℚ
deriving DecidableEq

/-- Fire every timeout due by `now`: any due callback resets the flag. -/
def fireDue (now : ℚ) (st : SuppressState) : SuppressState :=
  let due := st.pending.filter (fun x => decide (x ≤ now))
  ⟨if due.isEmpty then st.flag else false,
   st.pending.filter (fun x => decide (now < x))⟩

/-- The three echo callbacks guarded by `suppressEventsRef`. -/
inductive EchoKind
  | onPlay
  | onPause
  | onSeeked
deriving DecidableEq

/-- Timed happenings at the VideoPlayer: a programmatic command from the
reconciliation logic, or a DOM echo (`play`/`pause`/`seeked` event)
that would invoke the corresponding callback. -/
inductive PlayerTraceEv
  | command (c : PlayerCmd) (t : ℚ)
  | echo (k : EchoKind) (t : ℚ)
deriving DecidableEq

/-- One event-loop step: due timeouts fire first; a programmatic command
sets the flag and schedules its own clear at `t + suppressDuration`; a
DOM echo invokes its callback only when the flag is down. -/
def stepPlayerEv (st : SuppressState) : PlayerTraceEv → SuppressState × List EchoKind
  | .command c t =>
    let st1 := fireDue t st
    (⟨true, st1.pending ++ [t + suppressDuration c]⟩, [])
  | .echo k t =>
    let st1 := fireDue t st
    (st1, if st1.flag then [] else [k])

/-- Run a trace, collecting the callbacks actually invoked. -/
def runPlayerTrace (st : SuppressState) : List PlayerTraceEv → SuppressState × List EchoKind
  | [] => (st, [])
  | ev :: rest =>
    let r1 := stepPlayerEv st ev
    let r2 := runPlayerTrace r1.1 rest
    (r2.1, r1.2 ++ r2.2)

/-! ### Local-mode room key derivation (`LocalFileSelector`) -/

/-- ASCII whitespace stripped by `String.prototype.trim` (the Unicode
space classes are not needed by the claims). -/
def isJsSpace (c : Char) : Bool :=
  c = ' ' || c = Char.ofNat 9 || c = Char.ofNat 10 ||
    c = Char.ofNat 11 || c = Char.ofNat 12 || c = Char.ofNat 13

/-- Model of `roomName.trim()` on the character list. -/
def jsTrim (cs : List Char) : List Char :=
  ((cs.dropWhile isJsSpace).reverse.dropWhile isJsSpace).reverse

/-- Model of `.toLowerCase()` on the ASCII range. -/
def jsToLowerCase (cs : List Char) : List Char :=
  cs.map Char.toLower

/-- The base64 alphabet used by `btoa`. -/
def b64Table : List Char :=
  "ABCDEFGHIJKLMNOPQRSTUVWXYZabcdefghijklmnopqrstuvwxyz0123456789+/".data

def b64char (n : ℕ) : Char := b64Table.getD n 'A'

/-- Base64 of a byte list, with `=` padding, as `btoa` produces. -/
def b64encode : List ℕ → List Char
  | [] => []
  | [a] => [b64char (a / 4), b64char (a % 4 * 16), '=', '=']
  | [a, b] => [b64char (a / 4), b64char (a % 4 * 16 + b / 16), b64char (b % 16 * 4), '=']
  | a :: b :: c :: rest =>
    b64char (a / 4) :: b64char (a % 4 * 16 + b / 16) ::
      b64char (b % 16 * 4 + c / 64) :: b64char (c % 64) :: b64encode rest

/-- Input check of `btoa`: it accepts only latin-1 (throws otherwise) — the byte
list of a string all of whose code points fit one byte. -/
def latin1Bytes (cs : List Char) : Option (List ℕ) :=
  if cs.all (fun c => c.toNat < 256) then some (cs.map Char.toNat) else none

/-- Room key of `handleStartWatching`:
`btoa(roomName.trim().toLowerCase()).replace(/[^a-zA-Z0-9]/g, '')`,
`none` when `btoa` would throw on non-latin-1 input. -/
def deriveRoomId (roomName : String) : Option String :=
  (latin1Bytes (jsToLowerCase (jsTrim roomName.data))).map
    (fun bs => String.mk ((b64encode bs).filter Char.isAlphanum))

/-- Is a command a seek? (Used to count seeks a handler issues.) -/
def isSeekCmd : PlayerCmd → Bool
  | .seekTo _ => true
  | _ => false

/-! ### Theorems -/

/-- C1: on a `playback_state` event the reconciliation logic issues the
Player commands in the state-dependent order the spec fixes —
`playing` ⇒ `seekTo(time)` then `play()`; `paused` ⇒ `pause()` then
`seekTo(time)`; `seeked` ⇒ `seekTo(time)` only — and the issued
command sequence never depends on the local Player state (in
particular no comparison of `event.time` with the current local time
is made): any two room states with a live player receive the same
commands for the same event. -/
theorem C1_playback_state_order (s : RoomState) (e : PlaybackStateEvent)
    (p : PlayerView) (h : s.player = some p) :
    (handlePlaybackState s e).cmds =
      (match e.state with
       | PlaybackKind.playing => [PlayerCmd.seekTo e.time, PlayerCmd.play]
       | PlaybackKind.paused => [PlayerCmd.pause, PlayerCmd.seekTo e.time]
       | PlaybackKind.seeked => [PlayerCmd.seekTo e.time]) ∧
    (∀ s₂ : RoomState, ∀ p₂ : PlayerView, s₂.player = some p₂ →
      (handlePlaybackState s₂ e).cmds = (handlePlaybackState s e).cmds) := by
  constructor
  · simp only [handlePlaybackState, h]
  · intro s₂ p₂ h₂
    simp only [handlePlaybackState, h, h₂]

/-- Witness for C1 at the spec's scenario: peer A emits
`playback_state{state: playing, time: 10.0}` and peer B's Player
receives `seekTo(10.0)` then `play()`, in that order. -/
theorem C1_playback_state_order_witness :
    (handlePlaybackState ⟨some ⟨0, false⟩, false, false, "", [], none, "", ""⟩
        ⟨PlaybackKind.playing, 10, "Aditya", 0⟩).cmds =
      [PlayerCmd.seekTo 10, PlayerCmd.play] :=
  (C1_playback_state_order ⟨some ⟨0, false⟩, false, false, "", [], none, "", ""⟩
    ⟨PlaybackKind.playing, 10, "Aditya", 0⟩ ⟨0, false⟩ rfl).1

/-- C2: for a `time_sync` event with drift `|local − remote|` in ms:
drift ≤ tolerance ⇒ no seek is issued and the Player's time is left
unmodified; drift > tolerance ⇒ exactly one `seekTo(event.time)` is
issued; and the tolerance is the fixed protocol constant
`DRIFT_TOLERANCE_MS = 500`. -/
theorem C2_time_sync_drift (s : RoomState) (e : TimeSyncEvent) (p : PlayerView)
    (h : s.player = some p) :
    DRIFT_TOLERANCE_MS = 500 ∧
    (|p.currentTime - e.time| * 1000 ≤ DRIFT_TOLERANCE_MS →
      (∀ t, PlayerCmd.seekTo t ∉ (handleTimeSync s e).cmds) ∧
      (handleTimeSync s e).state.player.map PlayerView.currentTime =
        some p.currentTime) ∧
    (DRIFT_TOLERANCE_MS < |p.currentTime - e.time| * 1000 →
      (handleTimeSync s e).cmds.filter isSeekCmd = [PlayerCmd.seekTo e.time]) := by
  refine ⟨rfl, fun hd => ?_, fun hd => ?_⟩
  · rw [DRIFT_TOLERANCE_MS] at hd
    constructor
    · intro t
      simp only [handleTimeSync, h]
      rw [if_neg (by linarith)]
      split_ifs <;> simp
    · simp only [handleTimeSync, h]
      rw [if_neg (by linarith)]
      split_ifs <;>
        simp [PlayerView.applyCmds, PlayerView.applyCmd, List.foldl]
  · rw [DRIFT_TOLERANCE_MS] at hd
    simp only [handleTimeSync, h]
    rw [if_pos (by linarith)]
    split_ifs <;> simp [isSeekCmd, List.filter]

/-- Witness for C2 at the spec's scenario: heartbeat `time = 42.3`
playing against a local Player at `40.0` — drift 2300 ms > 500 ms, so
the seek to 42.3 is issued — and a heartbeat at `40.2` against the
same Player — drift 200 ms ≤ 500 ms, so no seek. -/
theorem C2_time_sync_drift_witness :
    (handleTimeSync ⟨some ⟨40, true⟩, false, false, "", [], none, "", ""⟩
        ⟨423 / 10, SyncKind.playing, "Aditya", 0⟩).cmds.filter isSeekCmd =
      [PlayerCmd.seekTo (423 / 10)] ∧
    (∀ t, PlayerCmd.seekTo t ∉
      (handleTimeSync ⟨some ⟨40, true⟩, false, false, "", [], none, "", ""⟩
        ⟨201 / 5, SyncKind.playing, "Aditya", 0⟩).cmds) :=
  ⟨(C2_time_sync_drift ⟨some ⟨40, true⟩, false, false, "", [], none, "", ""⟩
      ⟨423 / 10, SyncKind.playing, "Aditya", 0⟩ ⟨40, true⟩ rfl).2.2
      (by
        rw [DRIFT_TOLERANCE_MS, abs_sub_comm,
          abs_of_nonneg (by norm_num : (0 : ℚ) ≤ 423 / 10 - 40)]
        norm_num),
   ((C2_time_sync_drift ⟨some ⟨40, true⟩, false, false, "", [], none, "", ""⟩
      ⟨201 / 5, SyncKind.playing, "Aditya", 0⟩ ⟨40, true⟩ rfl).2.1
      (by
        rw [DRIFT_TOLERANCE_MS, abs_sub_comm,
          abs_of_nonneg (by norm_num : (0 : ℚ) ≤ 201 / 5 - 40)]
        norm_num)).1⟩

/-- C3: an event whose `sender` equals the local identity is dropped
before any handler is invoked, uniformly for every event kind. -/
theorem C3_self_echo_suppression (ctx : RoomCtx) (s : RoomState) (ev : SyncEvent)
    (h : ev.sender = ctx.identity) :
    receive ctx s (some ev) = none := by
  simp [receive, h]

/-- Witness for C3: a `chat_message` from "Aditya" received by "Aditya"
invokes no handler. -/
theorem C3_self_echo_suppression_witness :
    receive ⟨"Aditya", none, none, 0⟩
      ⟨none, false, false, "", [], none, "", ""⟩
      (some (SyncEvent.chat_message ⟨"hi", "Aditya", 3⟩)) = none :=
  C3_self_echo_suppression ⟨"Aditya", none, none, 0⟩
    ⟨none, false, false, "", [], none, "", ""⟩
    (SyncEvent.chat_message ⟨"hi", "Aditya", 3⟩) rfl

/-- C4: on `buffer_state` the peer-buffering flag is recorded; if the
peer started buffering the handler pauses the Player and sets the
waiting-for-peer notice; if the peer recovered it clears the notice
and plays only when the local side is not buffering — in particular,
while the local side is buffering, `play()` is never issued. -/
theorem C4_buffer_state (s : RoomState) (e : BufferStateEvent) (p : PlayerView)
    (h : s.player = some p) :
    (handleBufferState s e).state.peerBuffering = e.isBuffering ∧
    (e.isBuffering = true →
      (handleBufferState s e).cmds = [PlayerCmd.pause] ∧
      (handleBufferState s e).state.bufferNotice =
        "Waiting for " ++ e.sender ++ "…") ∧
    (e.isBuffering = false →
      (handleBufferState s e).state.bufferNotice = "" ∧
      (s.localBuffering = false →
        (handleBufferState s e).cmds = [PlayerCmd.play]) ∧
      (s.localBuffering = true →
        PlayerCmd.play ∉ (handleBufferState s e).cmds)) := by
  cases hb : e.isBuffering <;> cases hl : s.localBuffering <;>
    simp [handleBufferState, h, hb, hl]

/-- Witness for C4 at the spec's scenario: `buffer_state(false)` while
the local side is itself buffering issues no `play()` (and clears the
notice), and `buffer_state(true)` pauses and sets the notice. -/
theorem C4_buffer_state_witness :
    (PlayerCmd.play ∉
      (handleBufferState ⟨some ⟨7, false⟩, true, true, "Waiting for Aditya…", [], none, "", ""⟩
        ⟨false, "Aditya", 9⟩).cmds) ∧
    (handleBufferState ⟨some ⟨7, true⟩, false, false, "", [], none, "", ""⟩
        ⟨true, "Aditya", 9⟩).cmds = [PlayerCmd.pause] :=
  ⟨((C4_buffer_state ⟨some ⟨7, false⟩, true, true, "Waiting for Aditya…", [], none, "", ""⟩
      ⟨false, "Aditya", 9⟩ ⟨7, false⟩ rfl).2.2 rfl).2.2 rfl,
   ((C4_buffer_state ⟨some ⟨7, true⟩, false, false, "", [], none, "", ""⟩
      ⟨true, "Aditya", 9⟩ ⟨7, true⟩ rfl).2.1 rfl).1⟩

/-- C6: on `request_state` the receiver re-emits its current playback
state as a fresh `playback_state` (local time, `playing`/`paused` by
the local playing flag, local identity, current clock), followed — in
local-file mode with a computed hash — by a `file_hash` carrying the
local hash and file name; no Player command and no state change. -/
theorem C6_request_state (ctx : RoomCtx) (s : RoomState) (e : RequestStateEvent)
    (p : PlayerView) (hp : s.player = some p) (hid : ctx.identity ≠ "") :
    (handleRequestState ctx s e).emits =
      SyncEvent.playback_state
        ⟨(if p.playing then PlaybackKind.playing else PlaybackKind.paused),
          p.currentTime, ctx.identity, ctx.now⟩ ::
        (if ctx.mode = some PlaybackMode.localMode ∧ localFileHash ctx ≠ "" then
          [SyncEvent.file_hash ⟨localFileHash ctx, localFileName ctx, ctx.identity⟩]
        else []) ∧
    (handleRequestState ctx s e).cmds = [] ∧
    (handleRequestState ctx s e).state = s := by
  simp only [handleRequestState, hp, emitPlaybackStateCall, emitFileHashCall,
    if_neg hid]
  split_ifs <;> simp

/-- Witness for C6: a local-mode receiver with hash "abc123" playing at
t = 5 answers `request_state` with a fresh playing `playback_state`
and re-emits its `file_hash`. -/
theorem C6_request_state_witness :
    (handleRequestState ⟨"Aditya", some PlaybackMode.localMode,
        some ⟨"ep1.mkv", 100, "blob:a", "abc123"⟩, 777⟩
      ⟨some ⟨5, true⟩, false, false, "", [], none, "", ""⟩ ⟨"Manika"⟩).emits =
      [SyncEvent.playback_state ⟨PlaybackKind.playing, 5, "Aditya", 777⟩,
       SyncEvent.file_hash ⟨"abc123", "ep1.mkv", "Aditya"⟩] :=
  ((C6_request_state ⟨"Aditya", some PlaybackMode.localMode,
      some ⟨"ep1.mkv", 100, "blob:a", "abc123"⟩, 777⟩
    ⟨some ⟨5, true⟩, false, false, "", [], none, "", ""⟩ ⟨"Manika"⟩
    ⟨5, true⟩ rfl (by decide)).1).trans (by decide)

/-- C7: with an empty room key or identity the subscription effect never
runs (the engine state, including `connected = false` and the absent
channel, is untouched); and with no open subscription every emit call,
of every kind, silently drops its event without sending or queuing. -/
theorem C7_no_subscribe_and_emit_noop :
    (∀ videoId identity : String, videoId = "" ∨ identity = "" →
      subscribeEffect videoId identity initEngine = initEngine ∧
      initEngine.connected = false ∧ initEngine.channel = none) ∧
    (∀ es : EngineState, es.channel = none →
      ∀ identity : String, ∀ now : ℤ, ∀ c : EmitCall,
        runEmit es identity now c = []) := by
  constructor
  · intro videoId identity h
    refine ⟨?_, rfl, rfl⟩
    simp [subscribeEffect, h]
  · intro es h identity now c
    rcases es with ⟨ch, conn⟩
    simp only at h
    subst h
    simp only [runEmit, broadcast]
    split_ifs <;> rfl

/-- Witness for C7: an empty room key leaves the engine untouched, and
an emit of a chat message with no channel open sends nothing. -/
theorem C7_no_subscribe_and_emit_noop_witness :
    subscribeEffect "" "Aditya" initEngine = initEngine ∧
    runEmit initEngine "Aditya" 0 (EmitCall.chatMessage "yo") = [] :=
  ⟨(C7_no_subscribe_and_emit_noop.1 "" "Aditya" (Or.inl rfl)).1,
   C7_no_subscribe_and_emit_noop.2 initEngine rfl "Aditya" 0
     (EmitCall.chatMessage "yo")⟩

/-- Helper for C8: no handler other than `handleFileHash` ever writes
the `hashWarning` field. -/
theorem hashWarning_unchanged (ctx : RoomCtx) (s : RoomState) (ev : SyncEvent)
    (h : ev.isFileHash = false) :
    (applyEvent ctx s ev).hashWarning = s.hashWarning := by
  cases ev with
  | playback_state e =>
    simp only [applyEvent, stepEvent, handlePlaybackState]
    cases s.player <;> rfl
  | buffer_state e =>
    simp only [applyEvent, stepEvent, handleBufferState]
    split_ifs <;> rfl
  | time_sync e =>
    simp only [applyEvent, stepEvent, handleTimeSync]
    cases s.player <;> rfl
  | chat_message e => rfl
  | chat_ui_state e => rfl
  | request_state e =>
    simp only [applyEvent, stepEvent, handleRequestState]
    cases s.player <;> rfl
  | file_hash e => simp [SyncEvent.isFileHash] at h

/-- C8: in local-file mode with a computed hash, `file_hash` issues no
Player command and emits nothing; an equal hash clears the warning and
surfaces the success notice; a differing hash sets the persistent
mismatch warning, which every non-`file_hash` event leaves in place
and the Dismiss action clears. -/
theorem C8_file_hash_advisory (ctx : RoomCtx) (s : RoomState) (e : FileHashEvent)
    (f : LocalFile) (hm : ctx.mode = some PlaybackMode.localMode)
    (hf : ctx.localFile = some f) (hh : f.hash ≠ "") :
    (handleFileHash ctx s e).cmds = [] ∧
    (handleFileHash ctx s e).emits = [] ∧
    (e.hash = f.hash →
      (handleFileHash ctx s e).state.hashWarning = "" ∧
      (handleFileHash ctx s e).state.notification = verifiedNotice e) ∧
    (e.hash ≠ f.hash →
      (handleFileHash ctx s e).state.hashWarning = mismatchWarning e ∧
      (∀ ev : SyncEvent, ev.isFileHash = false →
        (applyEvent ctx ((handleFileHash ctx s e).state) ev).hashWarning =
          mismatchWarning e) ∧
      (dismissHashWarning ((handleFileHash ctx s e).state)).hashWarning = "") := by
  have hlf : localFileHash ctx = f.hash := by
    simp [localFileHash, hf]
  refine ⟨?_, ?_, fun heq => ?_, fun hne => ?_⟩
  · simp [handleFileHash, hm, hlf, hh]
    split_ifs <;> rfl
  · simp [handleFileHash, hm, hlf, hh]
    split_ifs <;> rfl
  · rw [handleFileHash, if_pos ⟨hm, by rw [hlf]; exact hh⟩,
      if_neg (by rw [hlf]; simpa using heq)]
    exact ⟨rfl, rfl⟩
  · rw [handleFileHash, if_pos ⟨hm, by rw [hlf]; exact hh⟩,
      if_pos (by rw [hlf]; exact hne)]
    exact ⟨rfl, fun ev hev => hashWarning_unchanged ctx _ ev hev, rfl⟩

/-- Witness for C8 at the spec's scenario: A's hash "abc123" differs
from B's stored "def456" ⇒ B's mismatch warning is set, survives an
unrelated chat message, and the Dismiss action clears it. -/
theorem C8_file_hash_advisory_witness :
    (handleFileHash ⟨"Manika", some PlaybackMode.localMode,
        some ⟨"ep1.mkv", 100, "blob:b", "def456"⟩, 0⟩
      ⟨some ⟨0, false⟩, false, false, "", [], none, "", ""⟩
      ⟨"abc123", "ep1.mkv", "Aditya"⟩).state.hashWarning =
      mismatchWarning ⟨"abc123", "ep1.mkv", "Aditya"⟩ ∧
    (applyEvent ⟨"Manika", some PlaybackMode.localMode,
        some ⟨"ep1.mkv", 100, "blob:b", "def456"⟩, 0⟩
      ((handleFileHash ⟨"Manika", some PlaybackMode.localMode,
          some ⟨"ep1.mkv", 100, "blob:b", "def456"⟩, 0⟩
        ⟨some ⟨0, false⟩, false, false, "", [], none, "", ""⟩
        ⟨"abc123", "ep1.mkv", "Aditya"⟩).state)
      (SyncEvent.chat_message ⟨"hi", "Aditya", 1⟩)).hashWarning =
      mismatchWarning ⟨"abc123", "ep1.mkv", "Aditya"⟩ := by
  have h := C8_file_hash_advisory ⟨"Manika", some PlaybackMode.localMode,
      some ⟨"ep1.mkv", 100, "blob:b", "def456"⟩, 0⟩
    ⟨some ⟨0, false⟩, false, false, "", [], none, "", ""⟩
    ⟨"abc123", "ep1.mkv", "Aditya"⟩
    ⟨"ep1.mkv", 100, "blob:b", "def456"⟩ rfl rfl (by decide)
  have h2 := h.2.2.2 (by decide)
  exact ⟨h2.1, h2.2.1 (SyncEvent.chat_message ⟨"hi", "Aditya", 1⟩) rfl⟩

/-- Concrete inputs refuting C5 as stated. -/
def cxCtx : RoomCtx := ⟨"Aditya", none, none, 0⟩

def cxRoom : RoomState := ⟨some ⟨0, false⟩, false, false, "", [], none, "", ""⟩

def cxChat : SyncEvent := SyncEvent.chat_message ⟨"hi", "Manika", 5⟩

def cxPlay : SyncEvent := SyncEvent.playback_state ⟨PlaybackKind.playing, 10, "Manika", 1⟩

/-- C5 fails as stated: delivering the same `chat_message` twice does
not leave the transcript as one delivery would (the handler appends
unconditionally, so the duplicate is appended again), and a second
delivery of the identical `playback_state` re-issues the full
`seekTo`/`play` command sequence rather than producing it once. -/
theorem C5_duplicate_delivery_counterexample :
    applyEvent cxCtx (applyEvent cxCtx cxRoom cxChat) cxChat ≠
      applyEvent cxCtx cxRoom cxChat ∧
    (stepEvent cxCtx (applyEvent cxCtx cxRoom cxPlay) cxPlay).cmds =
      [PlayerCmd.seekTo 10, PlayerCmd.play] := by
  constructor
  · intro h
    have hlen := congrArg (fun st => st.messages.length) h
    simp [applyEvent, stepEvent, handleChatMessage, cxRoom, cxChat, cxCtx] at hlen
  · decide

/-- C5 amended: every handler except `chat_message` is idempotent in
its effect on the local reconciliation state and the resulting Player
state — delivering the same event twice in succession leaves the same
state as delivering it once. (The `chat_message` handler appends per
delivery, and duplicated `playback_state` events re-issue their Player
commands each time, with unchanged resulting Player state.) -/
theorem C5_idempotent_except_chat (ctx : RoomCtx) (s : RoomState) (ev : SyncEvent)
    (h : ev.isChatMessage = false) :
    applyEvent ctx (applyEvent ctx s ev) ev = applyEvent ctx s ev := by
  obtain ⟨pl, lb, pb, bn, ms, pc, hw, nt⟩ := s
  cases ev with
  | chat_message e => simp [SyncEvent.isChatMessage] at h
  | chat_ui_state e => simp [applyEvent, stepEvent, handleChatUiState]
  | request_state e =>
    simp only [applyEvent, stepEvent, handleRequestState]
    cases pl <;> rfl
  | file_hash e =>
    simp only [applyEvent, stepEvent, handleFileHash]
    split_ifs <;> simp_all
  | playback_state e =>
    simp only [applyEvent, stepEvent, handlePlaybackState]
    cases pl with
    | none => rfl
    | some p =>
      obtain ⟨tm, pg⟩ := p
      cases e.state <;>
        simp [PlayerView.applyCmds, PlayerView.applyCmd]
  | buffer_state e =>
    simp only [applyEvent, stepEvent, handleBufferState]
    cases hb : e.isBuffering <;> cases lb <;> cases pl <;>
      simp [hb, PlayerView.applyCmds, PlayerView.applyCmd]
  | time_sync e =>
    cases pl with
    | none => rfl
    | some p =>
      obtain ⟨tm, pg⟩ := p
      have h50 : ¬((500 : ℚ) < 0) := by norm_num
      by_cases hd : (500 : ℚ) < |tm - e.time| * 1000 <;>
        cases hs : e.state <;> cases pg <;> cases pb <;> cases lb <;>
          simp [applyEvent, stepEvent, handleTimeSync, hd, hs, h50,
            PlayerView.applyCmds, PlayerView.applyCmd, List.foldl,
            sub_self, abs_zero, zero_mul]

/-- Witness for the amended C5: a duplicated `buffer_state` leaves the
same state as a single delivery. -/
theorem C5_idempotent_except_chat_witness :
    applyEvent cxCtx
        (applyEvent cxCtx cxRoom (SyncEvent.buffer_state ⟨true, "Manika", 2⟩))
        (SyncEvent.buffer_state ⟨true, "Manika", 2⟩) =
      applyEvent cxCtx cxRoom (SyncEvent.buffer_state ⟨true, "Manika", 2⟩) :=
  C5_idempotent_except_chat cxCtx cxRoom (SyncEvent.buffer_state ⟨true, "Manika", 2⟩) rfl

/-- C9 fails as stated: the suppression flag is shared and each command
schedules its own 200/300 ms clear, so an earlier command's timeout
can end a later command's window early. Concretely: `play()` at t = 0
(clear scheduled at 200), `seekTo(42)` at t = 150 (window to 450), and
the seek's DOM `seeked` echo at t = 250 — inside the seek's 300 ms
window — fires the 200 ms timeout first and the `onSeeked` callback IS
invoked. -/
theorem C9_window_counterexample :
    (150 : ℚ) < 250 ∧
    (250 : ℚ) < 150 + suppressDuration (PlayerCmd.seekTo 42) ∧
    (runPlayerTrace ⟨false, []⟩
      [PlayerTraceEv.command PlayerCmd.play 0,
       PlayerTraceEv.command (PlayerCmd.seekTo 42) 150,
       PlayerTraceEv.echo EchoKind.onSeeked 250]).2 = [EchoKind.onSeeked] := by
  refine ⟨by norm_num, by rw [suppressDuration]; norm_num, ?_⟩
  have h : runPlayerTrace ⟨false, []⟩
      [PlayerTraceEv.command PlayerCmd.play 0,
       PlayerTraceEv.command (PlayerCmd.seekTo 42) 150,
       PlayerTraceEv.echo EchoKind.onSeeked 250] =
      (⟨false, [450]⟩, [EchoKind.onSeeked]) := by
    simp [runPlayerTrace, stepPlayerEv, fireDue, suppressDuration,
      List.filter_cons, decide_eq_true_eq]
    norm_num
  rw [h]

/-- C9 amended: a programmatic command issued while no other suppression
clear is pending inside its window (in particular any command issued
in isolation) suppresses the echo callbacks for its whole fixed window
— 200 ms for `play`/`pause`, 300 ms for `seekTo`: an echo strictly
inside the window invokes no callback. -/
theorem C9_suppression_window (st : SuppressState) (c : PlayerCmd) (k : EchoKind)
    (t tEcho : ℚ)
    (hclean : ∀ x ∈ (fireDue t st).pending, t + suppressDuration c ≤ x)
    (_h1 : t < tEcho) (h2 : tEcho < t + suppressDuration c) :
    (runPlayerTrace st
      [PlayerTraceEv.command c t, PlayerTraceEv.echo k tEcho]).2 = [] := by
  simp only [fireDue] at hclean
  have hfilter : List.filter (fun x => decide (x ≤ tEcho))
      (List.filter (fun x => decide (t < x)) st.pending ++
        [t + suppressDuration c]) = [] := by
    rw [List.filter_eq_nil_iff]
    intro x hx
    rcases List.mem_append.mp hx with hx | hx
    · have hx3 := hclean x hx
      simp only [decide_eq_true_eq]
      intro hle
      linarith
    · rw [List.mem_singleton] at hx
      subst hx
      simp only [decide_eq_true_eq]
      intro hle
      linarith
  simp only [runPlayerTrace, stepPlayerEv, fireDue, List.nil_append,
    List.append_nil]
  simp [hfilter]

/-- Witness for the amended C9: a lone `play()` at t = 0 suppresses an
`onPlay` echo at t = 100 (inside its 200 ms window). -/
theorem C9_suppression_window_witness :
    (runPlayerTrace ⟨false, []⟩
      [PlayerTraceEv.command PlayerCmd.play 0,
       PlayerTraceEv.echo EchoKind.onPlay 100]).2 = [] :=
  C9_suppression_window ⟨false, []⟩ PlayerCmd.play EchoKind.onPlay 0 100
    (by intro x hx; simp [fireDue] at hx)
    (by norm_num)
    (by rw [suppressDuration]; norm_num)

/-- C10: the local-mode room key is
`btoa(roomName.trim().toLowerCase())` with every non-alphanumeric
character deleted — so it is deterministic in the normalized name (two
names with the same trimmed, lowercased form, e.g. differing only in
letter case or in leading/trailing whitespace, derive the same key and
hence the same channel name) — and it is not injective: the distinct
(already normalized) names "ø" and "ü" both derive the key "A". -/
theorem C10_room_key_normalizing :
    (∀ s t : String,
      jsToLowerCase (jsTrim s.data) = jsToLowerCase (jsTrim t.data) →
      deriveRoomId s = deriveRoomId t ∧
      (deriveRoomId s).map channelName = (deriveRoomId t).map channelName) ∧
    (deriveRoomId "ø" = some "A" ∧ deriveRoomId "ü" = some "A" ∧
      ("ø" : String) ≠ "ü" ∧
      jsToLowerCase (jsTrim ("ø" : String).data) ≠
        jsToLowerCase (jsTrim ("ü" : String).data)) := by
  constructor
  · intro s t h
    have hkey : deriveRoomId s = deriveRoomId t := by
      unfold deriveRoomId
      rw [h]
    exact ⟨hkey, by rw [hkey]⟩
  · exact ⟨by decide, by decide, by decide, by decide⟩

/-- Witness for C10: "  MOVIE night " and "movie night" differ only in
case and edge whitespace and derive the same room key. -/
theorem C10_room_key_normalizing_witness :
    deriveRoomId "  MOVIE night " = deriveRoomId "movie night" :=
  (C10_room_key_normalizing.1 "  MOVIE night " "movie night" (by decide)).1

end MnM
